import Mathlib

/-!
Verification of the laundry-lab order-management backend core
(`src/orders`, `src/catalog`, `src/users`): the order lifecycle state
machine, the pricing computation at order creation, the permission-gated
mutation operations and the statistics aggregation, shallowly embedded in
Lean from the TypeScript sources.

Identifiers (Mongo ObjectIds) are modelled as `Nat`, timestamps (`Date`)
as `Nat` milliseconds, monetary amounts (`number`) as `Int`, thrown
NestJS exceptions as an explicit `OrderError` in `Except`, and the order
collection as a `List Order`.
-/

namespace LaundryLab

/-- `OrderStatus` from `src/orders/enums/order-status.enum.ts`. -/
inductive OrderStatus where
  | requested
  | picked_up
  | in_laundry
  | out_for_delivery
  | delivered
  | cancelled
deriving DecidableEq, Repr

/-- The `ORDER_STATUS_TRANSITIONS` record from
`src/orders/enums/order-status.enum.ts`. -/
def ORDER_STATUS_TRANSITIONS : OrderStatus → List OrderStatus
  | .requested => [.picked_up, .cancelled]
  | .picked_up => [.in_laundry, .cancelled]
  | .in_laundry => [.out_for_delivery]
  | .out_for_delivery => [.delivered]
  | .delivered => []
  | .cancelled => []

/-- `isValidStatusTransition` from
`src/orders/enums/order-status.enum.ts`: membership of the target status
in the transition-table entry of the current status. -/
def isValidStatusTransition (currentStatus newStatus : OrderStatus) : Bool :=
  (ORDER_STATUS_TRANSITIONS currentStatus).contains newStatus

/-- The transition table as written in the specification (section 4.1),
kept as a separate definition so the code table can be compared to it. -/
def specTransitionTable : OrderStatus → List OrderStatus
  | .requested => [.picked_up, .cancelled]
  | .picked_up => [.in_laundry, .cancelled]
  | .in_laundry => [.out_for_delivery]
  | .out_for_delivery => [.delivered]
  | .delivered => []
  | .cancelled => []

/-- C1: `isValidStatusTransition current target` is true iff `target`
appears in the spec's fixed transition-table entry for `current`, for
every one of the 36 pairs; in particular DELIVERED and CANCELLED have no
outgoing transitions, and IN_LAUNDRY -> CANCELLED is rejected. -/
theorem isValidStatusTransition_iff_specTable :
    (∀ c t : OrderStatus,
        isValidStatusTransition c t = true ↔ t ∈ specTransitionTable c) ∧
    (∀ t : OrderStatus, isValidStatusTransition .delivered t = false) ∧
    (∀ t : OrderStatus, isValidStatusTransition .cancelled t = false) ∧
    isValidStatusTransition .in_laundry .cancelled = false := by
  refine ⟨?_, ?_, ?_, ?_⟩
  · intro c t
    cases c <;> cases t <;> simp [isValidStatusTransition,
      ORDER_STATUS_TRANSITIONS, specTransitionTable]
  · intro t; cases t <;> rfl
  · intro t; cases t <;> rfl
  · rfl

/-- `UserRole` from `src/users/enums/user-role.enum.ts`. -/
inductive UserRole where
  | customer
  | delivery
  | admin
deriving DecidableEq, Repr

/-- `ServiceType` from `src/catalog/enums/service-type.enum.ts`. -/
inductive ServiceType where
  | washing
  | ironing
deriving DecidableEq, Repr

/-- `ClothingCategory` from `src/catalog/enums/clothing-category.enum.ts`. -/
inductive ClothingCategory where
  | men
  | women
  | children
deriving DecidableEq, Repr

/-- The string value of a `ServiceType`, as interpolated into the
pricing error message of `OrdersService.createOrder`. -/
def serviceTypeValue : ServiceType → String
  | .washing => "washing"
  | .ironing => "ironing"

/-- The string value of an `OrderStatus`, as interpolated into the
transition error message of `OrdersService.updateOrderStatus`. -/
def orderStatusValue : OrderStatus → String
  | .requested => "requested"
  | .picked_up => "picked_up"
  | .in_laundry => "in_laundry"
  | .out_for_delivery => "out_for_delivery"
  | .delivered => "delivered"
  | .cancelled => "cancelled"

/-- A user, restricted to the fields the order engine consults
(`user._id` and `user.role` of `src/users/schemas/user.schema.ts`). -/
structure User where
  id : Nat
  role : UserRole
deriving DecidableEq, Repr

/-- The NestJS exceptions thrown by the order engine:
`NotFoundException`, `BadRequestException` (validation / invalid
transition), `ForbiddenException`, each with its message. -/
inductive OrderError where
  | notFound (msg : String)
  | badRequest (msg : String)
  | forbidden (msg : String)
deriving DecidableEq, Repr

/-- A catalog clothing item, restricted to the fields `createOrder`
reads (`_id` and `name.en` of
`src/catalog/schemas/clothing-item.schema.ts`). -/
structure ClothingItem where
  id : Nat
  nameEn : String
deriving DecidableEq, Repr

/-- A catalog pricing entry:
`(clothingItem, serviceType, category) -> price` with an `isActive`
flag, from `src/catalog/schemas/pricing.schema.ts`. -/
structure PricingEntry where
  clothingItem : Nat
  serviceType : ServiceType
  category : ClothingCategory
  price : Int
  isActive : Bool
deriving DecidableEq, Repr

/-- The catalog collections the order engine queries. -/
structure Catalog where
  clothingItems : List ClothingItem
  pricing : List PricingEntry
deriving DecidableEq, Repr

/-- `CatalogService.getClothingItemById` from
`src/catalog/catalog.service.ts`: find by id or throw
`NotFoundException('Clothing item not found')`. -/
def getClothingItemById (cat : Catalog) (id : Nat) :
    Except OrderError ClothingItem :=
  match cat.clothingItems.find? (fun i => i.id == id) with
  | some item => .ok item
  | none => .error (.notFound "Clothing item not found")

/-- `CatalogService.getItemPrice` from `src/catalog/catalog.service.ts`:
`findOne({clothingItem, serviceType, category, isActive: true})`, throw
`NotFoundException` when absent, else return the price. -/
def getItemPrice (cat : Catalog) (clothingItemId : Nat)
    (serviceType : ServiceType) (category : ClothingCategory) :
    Except OrderError Int :=
  match cat.pricing.find? (fun p =>
      p.clothingItem == clothingItemId && p.serviceType == serviceType &&
      p.category == category && p.isActive) with
  | some p => .ok p.price
  | none => .error (.notFound "Pricing not found for this item and service")

/-- A status-history entry (`StatusHistoryEntry` of
`src/orders/schemas/order.schema.ts`). -/
structure StatusHistoryEntry where
  status : OrderStatus
  timestamp : Nat
  note : String
  updatedBy : Nat
deriving DecidableEq, Repr

/-- An order line (`OrderItem` of `src/orders/schemas/order.schema.ts`). -/
structure OrderItem where
  clothingItem : Nat
  clothingItemName : String
  category : ClothingCategory
  services : List ServiceType
  quantity : Nat
  unitPrice : Int
  subtotal : Int
deriving DecidableEq, Repr

/-- `OrderPricing` of `src/orders/schemas/order.schema.ts`. -/
structure OrderPricing where
  itemsTotal : Int
  deliveryCharge : Int
  grandTotal : Int
deriving DecidableEq, Repr

/-- The order entity (`Order` of `src/orders/schemas/order.schema.ts`),
restricted to the fields the verified operations read or write;
addresses and notes are kept as plain strings. -/
structure Order where
  id : Nat
  customer : Nat
  deliveryPerson : Option Nat
  items : List OrderItem
  pricing : OrderPricing
  pickupAddress : String
  deliveryAddress : String
  notes : Option String
  status : OrderStatus
  statusHistory : List StatusHistoryEntry
  createdAt : Nat
deriving DecidableEq, Repr

/-- `OrderItemDto` of `src/orders/dto/create-order.dto.ts`. -/
structure OrderItemDto where
  clothingItemId : Nat
  category : ClothingCategory
  services : List ServiceType
  quantity : Nat
deriving DecidableEq, Repr

/-- `CreateOrderDto` of `src/orders/dto/create-order.dto.ts`
(addresses flattened to strings; `scheduledPickupTime` omitted, it is
not consulted by any verified property). -/
structure CreateOrderDto where
  items : List OrderItemDto
  pickupAddress : String
  deliveryAddress : Option String
  notes : Option String
deriving DecidableEq, Repr

/-- The class-validator checks on one `OrderItemDto`: `@Min(1)` on
`quantity` (the `IsEnum`/`IsArray` checks hold by typing here). -/
def validateOrderItemDto (d : OrderItemDto) : Bool :=
  1 ≤ d.quantity

/-- The class-validator checks on `CreateOrderDto`: `@IsArray()` and
`@ValidateNested({each: true})` on `items` — each element is validated,
but no minimum array size is imposed. -/
def validateCreateOrderDto (dto : CreateOrderDto) : Bool :=
  dto.items.all validateOrderItemDto

/-- The inner `for (const serviceType of item.services)` loop of
`OrdersService.createOrder`: accumulate `unitPrice += price`, and on a
failed `getItemPrice` rethrow
`BadRequestException('Pricing not found for <name> - <serviceType>')`. -/
def unitPriceForServices (cat : Catalog) (clothingItemId : Nat)
    (category : ClothingCategory) (itemName : String) :
    List ServiceType → Int → Except OrderError Int
  | [], unitPrice => .ok unitPrice
  | serviceType :: rest, unitPrice =>
    match getItemPrice cat clothingItemId serviceType category with
    | .ok price =>
        unitPriceForServices cat clothingItemId category itemName rest
          (unitPrice + price)
    | .error _ =>
        .error (.badRequest
          ("Pricing not found for " ++ itemName ++ " - " ++
            serviceTypeValue serviceType))

/-- The outer `for (const item of dto.items)` loop of
`OrdersService.createOrder`: resolve the clothing item, price its
services, compute `subtotal = unitPrice * quantity`, accumulate
`itemsTotal` and collect `itemsWithPricing`. -/
def priceOrderItems (cat : Catalog) :
    List OrderItemDto → Except OrderError (List OrderItem × Int)
  | [] => .ok ([], 0)
  | d :: rest =>
    match getClothingItemById cat d.clothingItemId with
    | .error e => .error e
    | .ok clothingItem =>
      match unitPriceForServices cat d.clothingItemId d.category
          clothingItem.nameEn d.services 0 with
      | .error e => .error e
      | .ok unitPrice =>
        match priceOrderItems cat rest with
        | .error e => .error e
        | .ok (lines, itemsTotal) =>
          .ok ({ clothingItem := d.clothingItemId,
                 clothingItemName := clothingItem.nameEn,
                 category := d.category, services := d.services,
                 quantity := d.quantity, unitPrice := unitPrice,
                 subtotal := unitPrice * (d.quantity : Int) } :: lines,
               unitPrice * (d.quantity : Int) + itemsTotal)

/-- `OrdersService.createOrder` from `src/orders/orders.service.ts`:
price every line, add the configured delivery charge once, and build the
order in status REQUESTED with the single creation history entry
`{REQUESTED, now, "Order placed", customer}`. `now` is the creation
timestamp and `newId` the identifier the store assigns. -/
def createOrder (cat : Catalog) (deliveryCharge : Int) (userId : Nat)
    (dto : CreateOrderDto) (now : Nat) (newId : Nat) :
    Except OrderError Order :=
  match priceOrderItems cat dto.items with
  | .error e => .error e
  | .ok (itemsWithPricing, itemsTotal) =>
    .ok { id := newId, customer := userId, deliveryPerson := none,
          items := itemsWithPricing,
          pricing := { itemsTotal := itemsTotal,
                       deliveryCharge := deliveryCharge,
                       grandTotal := itemsTotal + deliveryCharge },
          pickupAddress := dto.pickupAddress,
          deliveryAddress := dto.deliveryAddress.getD dto.pickupAddress,
          notes := dto.notes,
          status := .requested,
          statusHistory := [{ status := .requested, timestamp := now,
                              note := "Order placed", updatedBy := userId }],
          createdAt := now }

/-- `order.save()` on a fresh order: creation appends the new order to
the collection on success and leaves the collection untouched when the
service throws before reaching `save`. -/
def createOrderOp (cat : Catalog) (deliveryCharge : Int) (db : List Order)
    (userId : Nat) (dto : CreateOrderDto) (now : Nat) (newId : Nat) :
    List Order × Except OrderError Order :=
  match createOrder cat deliveryCharge userId dto now newId with
  | .ok o => (db ++ [o], .ok o)
  | .error e => (db, .error e)

/-- `this.orderModel.findById(orderId)`. -/
def findOrder (db : List Order) (orderId : Nat) : Option Order :=
  db.find? (fun o => o.id == orderId)

/-- `UpdateOrderStatusDto` of
`src/orders/dto/update-order-status.dto.ts` (`note` optional). -/
structure UpdateOrderStatusDto where
  status : OrderStatus
  note : Option String
deriving DecidableEq, Repr

/-- `OrdersService.updateOrderStatus` from
`src/orders/orders.service.ts`. The checks run in source order: order
lookup (NotFound), then the transition check (BadRequest naming both
statuses), then the permission check (Forbidden unless the caller is the
assigned delivery person or an admin), then the status write and the
history append with `dto.note || ''`. -/
def updateOrderStatus (db : List Order) (orderId : Nat)
    (dto : UpdateOrderStatusDto) (user : User) (now : Nat) :
    Except OrderError Order :=
  match findOrder db orderId with
  | none => .error (.notFound "Order not found")
  | some order =>
    if ¬ isValidStatusTransition order.status dto.status then
      .error (.badRequest
        ("Invalid status transition from " ++ orderStatusValue order.status ++
          " to " ++ orderStatusValue dto.status))
    else
      let isDelivery := order.deliveryPerson == some user.id
      let isAdmin := user.role == UserRole.admin
      if ¬ isDelivery ∧ ¬ isAdmin then
        .error (.forbidden "Only delivery person or admin can update order status")
      else
        .ok { order with
              status := dto.status,
              statusHistory := order.statusHistory ++
                [{ status := dto.status, timestamp := now,
                   note := dto.note.getD "", updatedBy := user.id }] }

/-- `AssignDeliveryDto` of `src/orders/dto/assign-delivery.dto.ts`. -/
structure AssignDeliveryDto where
  deliveryPersonId : Nat
deriving DecidableEq, Repr

/-- `OrdersService.assignDeliveryPerson` from
`src/orders/orders.service.ts`: NotFound for a missing order, NotFound
for a missing user, BadRequest when the user's role is not DELIVERY,
otherwise set `deliveryPerson` and save. -/
def assignDeliveryPerson (db : List Order) (users : List User)
    (orderId : Nat) (dto : AssignDeliveryDto) : Except OrderError Order :=
  match findOrder db orderId with
  | none => .error (.notFound "Order not found")
  | some order =>
    match users.find? (fun u => u.id == dto.deliveryPersonId) with
    | none => .error (.notFound "Delivery person not found")
    | some deliveryPerson =>
      if deliveryPerson.role ≠ UserRole.delivery then
        .error (.badRequest "User is not a delivery person")
      else
        .ok { order with deliveryPerson := some dto.deliveryPersonId }

/-- `OrdersService.getOrderById` from `src/orders/orders.service.ts`:
NotFound for a missing order; then the access check — customer of the
order, assigned delivery person, or admin — else Forbidden. -/
def getOrderById (db : List Order) (orderId : Nat) (user : User) :
    Except OrderError Order :=
  match findOrder db orderId with
  | none => .error (.notFound "Order not found")
  | some order =>
    let isCustomer := order.customer == user.id
    let isDelivery := order.deliveryPerson == some user.id
    let isAdmin := user.role == UserRole.admin
    if ¬ isCustomer ∧ ¬ isDelivery ∧ ¬ isAdmin then
      .error (.forbidden "Access denied to this order")
    else
      .ok order

/-- `OrdersService.getUnassignedOrders` from
`src/orders/orders.service.ts`:
`find({deliveryPerson: {$exists: false}, status: REQUESTED})` sorted by
`createdAt` ascending (oldest first). -/
def getUnassignedOrders (db : List Order) : List Order :=
  (db.filter (fun o =>
      o.deliveryPerson == none && o.status == OrderStatus.requested)).mergeSort
    (fun a b => a.createdAt ≤ b.createdAt)

/-- Number of orders of a given status in the collection — one bucket of
the `$group: {_id: "$status", count: {$sum: 1}}` aggregation. -/
def countStatus (db : List Order) (s : OrderStatus) : Nat :=
  (db.filter (fun o => o.status == s)).length

/-- The result shape of `OrdersService.getOrderStats`. -/
structure OrderStatsResult where
  totalOrders : Nat
  pendingOrders : Nat
  inProgressOrders : Nat
  completedOrders : Nat
  cancelledOrders : Nat
  todayOrders : Nat
  todayRevenue : Int
deriving DecidableEq, Repr

/-- `OrdersService.getOrderStats` from `src/orders/orders.service.ts`:
group the whole collection by status, sum all buckets into
`totalOrders`, roll the buckets up into pending / in-progress /
completed / cancelled, and count and sum the revenue of the orders with
`createdAt >= today` (start of the server day, passed in as `today`). -/
def getOrderStats (db : List Order) (today : Nat) : OrderStatsResult :=
  let todayDb := db.filter (fun o => today ≤ o.createdAt)
  { totalOrders :=
      countStatus db .requested + countStatus db .picked_up +
      countStatus db .in_laundry + countStatus db .out_for_delivery +
      countStatus db .delivered + countStatus db .cancelled,
    pendingOrders := countStatus db .requested,
    inProgressOrders :=
      countStatus db .picked_up + countStatus db .in_laundry +
      countStatus db .out_for_delivery,
    completedOrders := countStatus db .delivered,
    cancelledOrders := countStatus db .cancelled,
    todayOrders := todayDb.length,
    todayRevenue := (todayDb.map (fun o => o.pricing.grandTotal)).sum }

/-! ### Concrete fixtures

A small catalog and a few concrete orders, used to instantiate the
theorems below on the scenarios the specification itself names
(Shirt / MEN / washing 40 / ironing 25 / delivery charge 60). -/

/-- A catalog holding one clothing item (Shirt, id 1) priced 40 for
washing and 25 for ironing in category MEN. -/
def demoCatalog : Catalog :=
  { clothingItems := [{ id := 1, nameEn := "Shirt" }],
    pricing :=
      [{ clothingItem := 1, serviceType := .washing, category := .men,
         price := 40, isActive := true },
       { clothingItem := 1, serviceType := .ironing, category := .men,
         price := 25, isActive := true }] }

/-- Creation request: one line, Shirt / MEN / washing+ironing / qty 2. -/
def demoDto : CreateOrderDto :=
  { items := [{ clothingItemId := 1, category := .men,
                services := [.washing, .ironing], quantity := 2 }],
    pickupAddress := "Dhanmondi", deliveryAddress := none, notes := none }

/-- The order `createOrder demoCatalog 60 100 demoDto 1000 7` builds:
unit price 65, subtotal 130, grand total 190, status REQUESTED. -/
def demoOrder : Order :=
  { id := 7, customer := 100, deliveryPerson := none,
    items := [{ clothingItem := 1, clothingItemName := "Shirt",
                category := .men, services := [.washing, .ironing],
                quantity := 2, unitPrice := 65, subtotal := 130 }],
    pricing := { itemsTotal := 130, deliveryCharge := 60, grandTotal := 190 },
    pickupAddress := "Dhanmondi", deliveryAddress := "Dhanmondi",
    notes := none, status := .requested,
    statusHistory := [{ status := .requested, timestamp := 1000,
                        note := "Order placed", updatedBy := 100 }],
    createdAt := 1000 }

/-- Creation request with an empty items list (passes all the
class-validator checks on `CreateOrderDto`). -/
def emptyItemsDto : CreateOrderDto :=
  { items := [], pickupAddress := "Dhanmondi", deliveryAddress := none,
    notes := none }

/-! ### Claim theorems -/

/-- C9: on an existing order, `getOrderById` returns the order exactly
for the order's customer, its assigned delivery person, or an
administrator, and fails with the Forbidden error for every other
caller. -/
theorem getOrderById_access (db : List Order) (orderId : Nat) (user : User)
    (order : Order) (h : findOrder db orderId = some order) :
    (order.customer = user.id ∨ order.deliveryPerson = some user.id ∨
        user.role = UserRole.admin →
      getOrderById db orderId user = .ok order) ∧
    (order.customer ≠ user.id → order.deliveryPerson ≠ some user.id →
      user.role ≠ UserRole.admin →
      getOrderById db orderId user =
        .error (.forbidden "Access denied to this order")) := by
  unfold getOrderById
  rw [h]
  constructor
  · intro hacc
    have : ¬(¬((order.customer == user.id) = true) ∧
        ¬((order.deliveryPerson == some user.id) = true) ∧
        ¬((user.role == UserRole.admin) = true)) := by
      simp only [beq_iff_eq, not_and, not_not]
      intro h1 h2
      rcases hacc with h' | h' | h'
      · exact absurd h' h1
      · exact absurd h' h2
      · exact h'
    simp only [if_neg this]
  · intro h1 h2 h3
    have : (¬((order.customer == user.id) = true) ∧
        ¬((order.deliveryPerson == some user.id) = true) ∧
        ¬((user.role == UserRole.admin) = true)) := by
      simp only [beq_iff_eq]
      exact ⟨h1, h2, h3⟩
    simp only [if_pos this]

/-- C9 witness: in a one-order collection holding the unassigned
REQUESTED order `demoOrder` (customer 100), the delivery-role user 9 —
not assigned to the order — receives the Forbidden error, while the
customer receives the order. -/
theorem getOrderById_access_witness :
    getOrderById [demoOrder] 7 { id := 9, role := .delivery } =
      .error (.forbidden "Access denied to this order") ∧
    getOrderById [demoOrder] 7 { id := 100, role := .customer } =
      .ok demoOrder := by
  constructor
  · exact (getOrderById_access [demoOrder] 7 { id := 9, role := .delivery }
      demoOrder (by decide)).2 (by decide) (by decide) (by decide)
  · exact (getOrderById_access [demoOrder] 7 { id := 100, role := .customer }
      demoOrder (by decide)).1 (Or.inl (by decide))

/-- C7: `assignDeliveryPerson` fails with NotFound when the order or the
target user is missing, with the validation error when the user lacks
the delivery role, and otherwise succeeds — regardless of the order's
status or any existing assignment — updating only the `deliveryPerson`
field. -/
theorem assignDeliveryPerson_spec (db : List Order) (users : List User)
    (orderId : Nat) (dto : AssignDeliveryDto) :
    (findOrder db orderId = none →
      assignDeliveryPerson db users orderId dto =
        .error (.notFound "Order not found")) ∧
    (∀ order, findOrder db orderId = some order →
      users.find? (fun u => u.id == dto.deliveryPersonId) = none →
      assignDeliveryPerson db users orderId dto =
        .error (.notFound "Delivery person not found")) ∧
    (∀ order u, findOrder db orderId = some order →
      users.find? (fun v => v.id == dto.deliveryPersonId) = some u →
      u.role ≠ UserRole.delivery →
      assignDeliveryPerson db users orderId dto =
        .error (.badRequest "User is not a delivery person")) ∧
    (∀ order u, findOrder db orderId = some order →
      users.find? (fun v => v.id == dto.deliveryPersonId) = some u →
      u.role = UserRole.delivery →
      assignDeliveryPerson db users orderId dto =
        .ok { order with deliveryPerson := some dto.deliveryPersonId }) := by
  refine ⟨?_, ?_, ?_, ?_⟩
  · intro h
    unfold assignDeliveryPerson
    rw [h]
  · intro order h hu
    unfold assignDeliveryPerson
    rw [h, hu]
  · intro order u h hu hrole
    unfold assignDeliveryPerson
    rw [h, hu]
    dsimp only
    rw [if_pos hrole]
  · intro order u h hu hrole
    unfold assignDeliveryPerson
    rw [h, hu]
    dsimp only
    rw [if_neg (by simp [hrole])]

/-- C7 witness: assigning delivery-role user 9 to the REQUESTED order
`demoOrder` succeeds and changes only `deliveryPerson`; assigning the
customer-role user 100 fails with the validation error; a nonexistent
user id fails with NotFound. -/
theorem assignDeliveryPerson_spec_witness :
    assignDeliveryPerson [demoOrder]
        [{ id := 9, role := .delivery }, { id := 100, role := .customer }]
        7 { deliveryPersonId := 9 } =
      .ok { demoOrder with deliveryPerson := some 9 } ∧
    assignDeliveryPerson [demoOrder]
        [{ id := 9, role := .delivery }, { id := 100, role := .customer }]
        7 { deliveryPersonId := 100 } =
      .error (.badRequest "User is not a delivery person") ∧
    assignDeliveryPerson [demoOrder]
        [{ id := 9, role := .delivery }, { id := 100, role := .customer }]
        7 { deliveryPersonId := 55 } =
      .error (.notFound "Delivery person not found") := by
  refine ⟨?_, ?_, ?_⟩
  · exact (assignDeliveryPerson_spec [demoOrder]
      [{ id := 9, role := .delivery }, { id := 100, role := .customer }]
      7 { deliveryPersonId := 9 }).2.2.2 demoOrder
      { id := 9, role := .delivery } (by decide) (by decide) rfl
  · exact (assignDeliveryPerson_spec [demoOrder]
      [{ id := 9, role := .delivery }, { id := 100, role := .customer }]
      7 { deliveryPersonId := 100 }).2.2.1 demoOrder
      { id := 100, role := .customer } (by decide) (by decide) (by decide)
  · exact (assignDeliveryPerson_spec [demoOrder]
      [{ id := 9, role := .delivery }, { id := 100, role := .customer }]
      7 { deliveryPersonId := 55 }).2.1 demoOrder (by decide) (by decide)

/-- C6: the creation path accepts an empty items list. The DTO passes
every class-validator check (`@IsArray` plus per-element validation, no
minimum size), and `createOrder` persists an order with `items = []`,
`itemsTotal = 0` and `grandTotal = deliveryCharge` — the specification's
non-emptiness invariant is not enforced anywhere in the code. -/
theorem createOrder_accepts_empty_items :
    validateCreateOrderDto emptyItemsDto = true ∧
    ∃ o, createOrderOp demoCatalog 60 [] 100 emptyItemsDto 1000 7 =
        ([o], .ok o) ∧
      o.items = [] ∧ o.pricing.itemsTotal = 0 ∧ o.pricing.grandTotal = 60 := by
  refine ⟨rfl, ?_⟩
  refine ⟨{ id := 7, customer := 100, deliveryPerson := none, items := [],
            pricing := { itemsTotal := 0, deliveryCharge := 60,
                         grandTotal := 60 },
            pickupAddress := "Dhanmondi", deliveryAddress := "Dhanmondi",
            notes := none, status := .requested,
            statusHistory := [{ status := .requested, timestamp := 1000,
                                note := "Order placed", updatedBy := 100 }],
            createdAt := 1000 }, ?_, rfl, rfl, rfl⟩
  rfl

/-- An order stuck in IN_LAUNDRY, assigned to delivery person 9. -/
def inLaundryOrder : Order :=
  { demoOrder with
    id := 8, status := .in_laundry, deliveryPerson := some 9,
    statusHistory := demoOrder.statusHistory ++
      [{ status := .picked_up, timestamp := 1100, note := "",
         updatedBy := 9 },
       { status := .in_laundry, timestamp := 1200, note := "",
         updatedBy := 9 }] }

/-- C2 counterexample: user 77 (role customer) is neither the assigned
delivery person of `inLaundryOrder` nor an admin, and requests the
transition IN_LAUNDRY -> CANCELLED, which the table rejects. The claim
demands Forbidden; the code checks the transition first and returns the
transition error, never a Forbidden error. -/
theorem updateOrderStatus_transition_error_first :
    updateOrderStatus [inLaundryOrder] 8
        { status := .cancelled, note := none }
        { id := 77, role := .customer } 2000 =
      .error (.badRequest
        "Invalid status transition from in_laundry to cancelled") ∧
    ∀ msg, updateOrderStatus [inLaundryOrder] 8
        { status := .cancelled, note := none }
        { id := 77, role := .customer } 2000 ≠ .error (.forbidden msg) := by
  constructor
  · rfl
  · intro msg h
    have h1 : updateOrderStatus [inLaundryOrder] 8
        { status := .cancelled, note := none }
        { id := 77, role := .customer } 2000 =
      .error (.badRequest
        "Invalid status transition from in_laundry to cancelled") := rfl
    rw [h1] at h
    injection h with h2
    exact OrderError.noConfusion h2

/-- C2 (amended): on an existing order the transition check runs before
the permission check — an invalid transition yields the transition error
naming source and target for every caller, and the Forbidden error is
returned exactly when the transition is valid and the caller is neither
the assigned delivery person nor an admin. -/
theorem updateOrderStatus_check_order (db : List Order) (orderId : Nat)
    (dto : UpdateOrderStatusDto) (user : User) (now : Nat) (order : Order)
    (h : findOrder db orderId = some order) :
    (isValidStatusTransition order.status dto.status = false →
      updateOrderStatus db orderId dto user now =
        .error (.badRequest ("Invalid status transition from " ++
          orderStatusValue order.status ++ " to " ++
          orderStatusValue dto.status))) ∧
    (isValidStatusTransition order.status dto.status = true →
      order.deliveryPerson ≠ some user.id → user.role ≠ UserRole.admin →
      updateOrderStatus db orderId dto user now =
        .error (.forbidden
          "Only delivery person or admin can update order status")) := by
  unfold updateOrderStatus
  rw [h]
  dsimp only
  constructor
  · intro hval
    rw [if_pos (by simp [hval])]
  · intro hval hdp hrole
    rw [if_neg (by simp [hval]), if_pos]
    constructor
    · simp only [beq_iff_eq]
      exact fun habs => hdp habs
    · simp only [beq_iff_eq]
      exact fun habs => hrole habs

/-- C2 witness: user 77 (customer role, unassigned) requesting
IN_LAUNDRY -> CANCELLED on `inLaundryOrder` gets the transition error;
the unassigned delivery-role user 9 requesting the valid transition
REQUESTED -> PICKED_UP on `demoOrder` gets the Forbidden error. -/
theorem updateOrderStatus_check_order_witness :
    updateOrderStatus [inLaundryOrder] 8
        { status := .cancelled, note := none }
        { id := 77, role := .customer } 2000 =
      .error (.badRequest
        "Invalid status transition from in_laundry to cancelled") ∧
    updateOrderStatus [demoOrder] 7
        { status := .picked_up, note := none }
        { id := 9, role := .delivery } 2000 =
      .error (.forbidden
        "Only delivery person or admin can update order status") := by
  constructor
  · exact (updateOrderStatus_check_order [inLaundryOrder] 8
      { status := .cancelled, note := none }
      { id := 77, role := .customer } 2000 inLaundryOrder (by decide)).1
      (by decide)
  · exact (updateOrderStatus_check_order [demoOrder] 7
      { status := .picked_up, note := none }
      { id := 9, role := .delivery } 2000 demoOrder (by decide)).2
      (by decide) (by decide) (by decide)

/-- C10: the unassigned-orders listing contains exactly the orders with
no delivery person and status REQUESTED, and is sorted oldest-first by
creation time. -/
theorem getUnassignedOrders_spec (db : List Order) :
    (∀ o, o ∈ getUnassignedOrders db ↔
      o ∈ db ∧ o.deliveryPerson = none ∧
        o.status = OrderStatus.requested) ∧
    List.Pairwise (fun a b => a.createdAt ≤ b.createdAt)
      (getUnassignedOrders db) := by
  constructor
  · intro o
    unfold getUnassignedOrders
    rw [List.Perm.mem_iff (List.mergeSort_perm _ _)]
    simp [List.mem_filter, and_assoc]
  · unfold getUnassignedOrders
    refine List.Pairwise.imp ?_
      (List.sorted_mergeSort ?_ ?_ (db.filter (fun o =>
        o.deliveryPerson == none && o.status == OrderStatus.requested)))
    · intro a b hab
      exact of_decide_eq_true hab
    · intro a b c hab hbc
      simp only [decide_eq_true_eq] at hab hbc ⊢
      omega
    · intro a b
      simp only [Bool.or_eq_true, decide_eq_true_eq]
      omega

/-- Every order falls in exactly one status bucket, so the six bucket
counts sum to the collection size. -/
theorem countStatus_total (db : List Order) :
    countStatus db .requested + countStatus db .picked_up +
      countStatus db .in_laundry + countStatus db .out_for_delivery +
      countStatus db .delivered + countStatus db .cancelled = db.length := by
  have hc : ∀ (l : List Order) (s : OrderStatus),
      countStatus l s = l.countP (fun o => o.status == s) := by
    intro l s
    rw [countStatus, List.countP_eq_length_filter]
  simp only [hc]
  induction db with
  | nil => rfl
  | cons o rest ih =>
    simp only [List.countP_cons]
    cases h : o.status <;> simp [h] <;> omega

/-- A bare order used in the statistics scenario; only `status` (and a
distinct id) matter to the aggregation. -/
def mkStatsOrder (id : Nat) (s : OrderStatus) : Order :=
  { id := id, customer := 0, deliveryPerson := none, items := [],
    pricing := { itemsTotal := 0, deliveryCharge := 60, grandTotal := 60 },
    pickupAddress := "", deliveryAddress := "", notes := none,
    status := s,
    statusHistory := [{ status := s, timestamp := 0, note := "",
                        updatedBy := 0 }],
    createdAt := 0 }

/-- The spec's fleet-stats scenario collection:
3 REQUESTED, 2 DELIVERED, 1 CANCELLED. -/
def demoStatsDb : List Order :=
  [mkStatsOrder 1 .requested, mkStatsOrder 2 .requested,
   mkStatsOrder 3 .requested, mkStatsOrder 4 .delivered,
   mkStatsOrder 5 .delivered, mkStatsOrder 6 .cancelled]

/-- C8: `getOrderStats` reports pending = REQUESTED count,
in-progress = PICKED_UP + IN_LAUNDRY + OUT_FOR_DELIVERY counts,
completed = DELIVERED count, cancelled = CANCELLED count, and a total
equal to the sum of all status buckets, which equals the collection
size; on the scenario collection it yields 6 / 3 / 0 / 2 / 1. -/
theorem getOrderStats_spec :
    (∀ (db : List Order) (today : Nat),
      (getOrderStats db today).pendingOrders = countStatus db .requested ∧
      (getOrderStats db today).inProgressOrders =
        countStatus db .picked_up + countStatus db .in_laundry +
          countStatus db .out_for_delivery ∧
      (getOrderStats db today).completedOrders =
        countStatus db .delivered ∧
      (getOrderStats db today).cancelledOrders =
        countStatus db .cancelled ∧
      (getOrderStats db today).totalOrders =
        (getOrderStats db today).pendingOrders +
          (getOrderStats db today).inProgressOrders +
          (getOrderStats db today).completedOrders +
          (getOrderStats db today).cancelledOrders ∧
      (getOrderStats db today).totalOrders = db.length) ∧
    ((getOrderStats demoStatsDb 0).totalOrders = 6 ∧
      (getOrderStats demoStatsDb 0).pendingOrders = 3 ∧
      (getOrderStats demoStatsDb 0).completedOrders = 2 ∧
      (getOrderStats demoStatsDb 0).cancelledOrders = 1 ∧
      (getOrderStats demoStatsDb 0).inProgressOrders = 0) := by
  constructor
  · intro db today
    refine ⟨rfl, rfl, rfl, rfl, ?_, ?_⟩
    · unfold getOrderStats
      dsimp only
      omega
    · have h := countStatus_total db
      unfold getOrderStats
      dsimp only
      omega
  · refine ⟨rfl, rfl, rfl, rfl, rfl⟩

/-- The price `getItemPrice` resolves for one service of a line
(defaulting to 0; on every path where it is used below the lookup is
proved to succeed). -/
def resolvedPrice (cat : Catalog) (clothingItemId : Nat)
    (category : ClothingCategory) (serviceType : ServiceType) : Int :=
  ((getItemPrice cat clothingItemId serviceType category).toOption).getD 0

/-- A successful service-price accumulation returns the accumulator
plus the sum of the resolved per-service prices, and every requested
service had an active price. -/
theorem unitPriceForServices_ok (cat : Catalog) (id : Nat)
    (c : ClothingCategory) (name : String) :
    ∀ (services : List ServiceType) (acc v : Int),
      unitPriceForServices cat id c name services acc = .ok v →
      v = acc + (services.map (resolvedPrice cat id c)).sum ∧
        ∀ st ∈ services, ∃ p, getItemPrice cat id st c = .ok p := by
  intro services
  induction services with
  | nil =>
    intro acc v h
    injection h with h
    subst h
    simp
  | cons st rest ih =>
    intro acc v h
    unfold unitPriceForServices at h
    cases hp : getItemPrice cat id st c with
    | error e =>
      rw [hp] at h
      exact absurd h (by simp)
    | ok p =>
      rw [hp] at h
      obtain ⟨h1, h2⟩ := ih (acc + p) v h
      refine ⟨?_, ?_⟩
      · rw [h1]
        simp only [List.map_cons, List.sum_cons, resolvedPrice, hp,
          Except.toOption, Option.getD_some]
        ring
      · intro st' hst'
        rcases List.mem_cons.mp hst' with rfl | hmem
        · exact ⟨p, hp⟩
        · exact h2 st' hmem

/-- A successful pricing pass returns lines matching the request lines
pointwise — unit price the sum of the resolved per-service prices,
subtotal `unitPrice * quantity` — and a running total equal to the sum
of the line subtotals. -/
theorem priceOrderItems_ok (cat : Catalog) :
    ∀ (dtos : List OrderItemDto) (lines : List OrderItem) (total : Int),
      priceOrderItems cat dtos = .ok (lines, total) →
      total = (lines.map OrderItem.subtotal).sum ∧
        List.Forall₂ (fun (d : OrderItemDto) (line : OrderItem) =>
          line.clothingItem = d.clothingItemId ∧
          line.category = d.category ∧ line.services = d.services ∧
          line.quantity = d.quantity ∧
          line.unitPrice =
            (d.services.map
              (resolvedPrice cat d.clothingItemId d.category)).sum ∧
          line.subtotal = line.unitPrice * (line.quantity : Int))
          dtos lines := by
  intro dtos
  induction dtos with
  | nil =>
    intro lines total h
    injection h with h
    injection h with h1 h2
    subst h1
    subst h2
    exact ⟨rfl, List.Forall₂.nil⟩
  | cons d rest ih =>
    intro lines total h
    unfold priceOrderItems at h
    cases hci : getClothingItemById cat d.clothingItemId with
    | error e =>
      rw [hci] at h
      exact absurd h (by simp)
    | ok ci =>
      rw [hci] at h
      dsimp only at h
      cases hup : unitPriceForServices cat d.clothingItemId d.category
          ci.nameEn d.services 0 with
      | error e =>
        rw [hup] at h
        exact absurd h (by simp)
      | ok up =>
        rw [hup] at h
        cases hrest : priceOrderItems cat rest with
        | error e =>
          rw [hrest] at h
          exact absurd h (by simp)
        | ok pr =>
          obtain ⟨ls, tot⟩ := pr
          rw [hrest] at h
          injection h with h
          injection h with h1 h2
          subst h1
          subst h2
          obtain ⟨ht, hf⟩ := ih ls tot hrest
          obtain ⟨hv, _⟩ := unitPriceForServices_ok cat d.clothingItemId
            d.category ci.nameEn d.services 0 up hup
          refine ⟨?_, ?_⟩
          · simp only [List.map_cons, List.sum_cons, ht]
          · refine List.Forall₂.cons ?_ hf
            refine ⟨rfl, rfl, rfl, rfl, ?_, rfl⟩
            rw [hv]
            ring

/-- Every element of the right list of a `Forall₂` is related to some
element of the left list. -/
theorem forall₂_exists_left_of_mem {α β : Type _} {R : α → β → Prop} :
    ∀ {l₁ : List α} {l₂ : List β}, List.Forall₂ R l₁ l₂ →
      ∀ b ∈ l₂, ∃ a ∈ l₁, R a b := by
  intro l₁ l₂ h
  induction h with
  | nil =>
    intro b hb
    simp at hb
  | cons hab hrest ih =>
    intro b hb
    rcases List.mem_cons.mp hb with rfl | hmem
    · exact ⟨_, List.mem_cons_self _ _, hab⟩
    · obtain ⟨a, ha, har⟩ := ih b hmem
      exact ⟨a, List.mem_cons_of_mem _ ha, har⟩

/-- C4: on every successfully created order, each line's unit price is
the sum of the resolved per-service prices (additive across services),
each subtotal is `unitPrice * quantity`, `itemsTotal` is the sum of the
line subtotals, the delivery charge is the single configuration value,
and `grandTotal = itemsTotal + deliveryCharge`. -/
theorem createOrder_pricing (cat : Catalog) (deliveryCharge : Int)
    (userId : Nat) (dto : CreateOrderDto) (now newId : Nat) (o : Order)
    (h : createOrder cat deliveryCharge userId dto now newId = .ok o) :
    List.Forall₂ (fun (d : OrderItemDto) (line : OrderItem) =>
      line.unitPrice =
        (d.services.map
          (resolvedPrice cat d.clothingItemId d.category)).sum ∧
      line.quantity = d.quantity ∧
      line.subtotal = line.unitPrice * (line.quantity : Int))
      dto.items o.items ∧
    (∀ line ∈ o.items,
      line.subtotal = line.unitPrice * (line.quantity : Int)) ∧
    o.pricing.itemsTotal = (o.items.map OrderItem.subtotal).sum ∧
    o.pricing.deliveryCharge = deliveryCharge ∧
    o.pricing.grandTotal =
      o.pricing.itemsTotal + o.pricing.deliveryCharge := by
  unfold createOrder at h
  cases hp : priceOrderItems cat dto.items with
  | error e =>
    rw [hp] at h
    exact absurd h (by simp)
  | ok pr =>
    obtain ⟨lines, total⟩ := pr
    rw [hp] at h
    injection h with h
    subst h
    obtain ⟨ht, hf⟩ := priceOrderItems_ok cat dto.items lines total hp
    refine ⟨?_, ?_, ht, rfl, rfl⟩
    · exact hf.imp (fun a b hab => ⟨hab.2.2.2.2.1, hab.2.2.2.1, hab.2.2.2.2.2⟩)
    · intro line hline
      obtain ⟨d, -, hd⟩ := forall₂_exists_left_of_mem hf line hline
      exact hd.2.2.2.2.2

/-- C4 witness: the spec's scenario — one line Shirt / MEN /
washing+ironing / quantity 2, washing 40, ironing 25, delivery charge
60 — yields `itemsTotal = 130` and `grandTotal = 190`, and the general
pricing identities instantiate on it. -/
theorem createOrder_pricing_witness :
    createOrder demoCatalog 60 100 demoDto 1000 7 = .ok demoOrder ∧
    demoOrder.pricing.itemsTotal = 130 ∧
    demoOrder.pricing.grandTotal = 190 ∧
    demoOrder.pricing.itemsTotal =
      (demoOrder.items.map OrderItem.subtotal).sum ∧
    demoOrder.pricing.grandTotal =
      demoOrder.pricing.itemsTotal + demoOrder.pricing.deliveryCharge := by
  have h : createOrder demoCatalog 60 100 demoDto 1000 7 =
      .ok demoOrder := rfl
  have hc := createOrder_pricing demoCatalog 60 100 demoDto 1000 7
    demoOrder h
  exact ⟨h, rfl, rfl, hc.2.2.1, hc.2.2.2.2⟩

/-- When every requested service of the line is priced, the
accumulation succeeds. -/
theorem unitPriceForServices_ok_of_priced (cat : Catalog) (id : Nat)
    (c : ClothingCategory) (name : String) :
    ∀ (services : List ServiceType) (acc : Int),
      (∀ st ∈ services, ∃ p, getItemPrice cat id st c = .ok p) →
      ∃ v, unitPriceForServices cat id c name services acc = .ok v := by
  intro services
  induction services with
  | nil =>
    intro acc _
    exact ⟨acc, rfl⟩
  | cons st rest ih =>
    intro acc hall
    obtain ⟨p, hp⟩ := hall st (List.mem_cons_self st rest)
    obtain ⟨v, hv⟩ := ih (acc + p)
      (fun st' hst' => hall st' (List.mem_cons_of_mem st hst'))
    refine ⟨v, ?_⟩
    unfold unitPriceForServices
    rw [hp]
    exact hv

/-- When some requested service of the line has no active price, the
accumulation fails with the BadRequest error naming the clothing item
and that service. -/
theorem unitPriceForServices_error_of_missing (cat : Catalog) (id : Nat)
    (c : ClothingCategory) (name : String) :
    ∀ (services : List ServiceType) (acc : Int),
      (∃ st ∈ services, ∀ p, getItemPrice cat id st c ≠ .ok p) →
      ∃ st ∈ services, (∀ p, getItemPrice cat id st c ≠ .ok p) ∧
        unitPriceForServices cat id c name services acc =
          .error (.badRequest ("Pricing not found for " ++ name ++ " - " ++
            serviceTypeValue st)) := by
  intro services
  induction services with
  | nil =>
    intro acc hmiss
    obtain ⟨st, hst, -⟩ := hmiss
    exact absurd hst (List.not_mem_nil st)
  | cons st rest ih =>
    intro acc hmiss
    cases hp : getItemPrice cat id st c with
    | error e =>
      refine ⟨st, List.mem_cons_self st rest, ?_, ?_⟩
      · intro p hcontra
        rw [hp] at hcontra
        exact Except.noConfusion hcontra
      · unfold unitPriceForServices
        rw [hp]
    | ok p =>
      obtain ⟨st', hst', hmiss'⟩ := hmiss
      rcases List.mem_cons.mp hst' with rfl | hmem
      · exact absurd hp (hmiss' p)
      · obtain ⟨st'', hst'', hmiss'', heq⟩ := ih (acc + p) ⟨st', hmem, hmiss'⟩
        refine ⟨st'', List.mem_cons_of_mem st hst'', hmiss'', ?_⟩
        unfold unitPriceForServices
        rw [hp]
        exact heq

/-- When every line's clothing item exists but some line requests a
service with no active price, the pricing pass fails with the
BadRequest error naming the first such item/service combination. -/
theorem priceOrderItems_error_of_missing (cat : Catalog) :
    ∀ dtos : List OrderItemDto,
      (∀ d ∈ dtos, ∃ ci,
        getClothingItemById cat d.clothingItemId = .ok ci) →
      (∃ d ∈ dtos, ∃ st ∈ d.services,
        ∀ p, getItemPrice cat d.clothingItemId st d.category ≠ .ok p) →
      ∃ d ∈ dtos, ∃ ci st,
        getClothingItemById cat d.clothingItemId = .ok ci ∧
        st ∈ d.services ∧
        (∀ p, getItemPrice cat d.clothingItemId st d.category ≠ .ok p) ∧
        priceOrderItems cat dtos =
          .error (.badRequest ("Pricing not found for " ++ ci.nameEn ++
            " - " ++ serviceTypeValue st)) := by
  intro dtos
  induction dtos with
  | nil =>
    intro _ hmiss
    obtain ⟨d, hd, -⟩ := hmiss
    exact absurd hd (List.not_mem_nil d)
  | cons d rest ih =>
    intro hall hmiss
    obtain ⟨ci, hci⟩ := hall d (List.mem_cons_self d rest)
    by_cases hd : ∃ st ∈ d.services,
        ∀ p, getItemPrice cat d.clothingItemId st d.category ≠ .ok p
    · obtain ⟨st, hst, hm, heq⟩ := unitPriceForServices_error_of_missing
        cat d.clothingItemId d.category ci.nameEn d.services 0 hd
      refine ⟨d, List.mem_cons_self d rest, ci, st, hci, hst, hm, ?_⟩
      unfold priceOrderItems
      rw [hci]
      dsimp only
      rw [heq]
    · have hpriced : ∀ st ∈ d.services,
          ∃ p, getItemPrice cat d.clothingItemId st d.category = .ok p := by
        intro st hst
        by_contra hno
        push_neg at hno
        exact hd ⟨st, hst, hno⟩
      obtain ⟨v, hv⟩ := unitPriceForServices_ok_of_priced cat
        d.clothingItemId d.category ci.nameEn d.services 0 hpriced
      obtain ⟨d', hd', hrest⟩ := hmiss
      rcases List.mem_cons.mp hd' with rfl | hmem
      · exact absurd hrest hd
      · obtain ⟨d'', hd'', ci', st', hci', hst', hm', heq'⟩ :=
          ih (fun x hx => hall x (List.mem_cons_of_mem d hx))
            ⟨d', hmem, hrest⟩
        refine ⟨d'', List.mem_cons_of_mem d hd'', ci', st', hci', hst',
          hm', ?_⟩
        unfold priceOrderItems
        rw [hci]
        dsimp only
        rw [hv, heq']

/-- C3: when some line of the creation request asks for a service with
no active price for its (item, service, category) key — and every
line's clothing item exists, so the pricing check is what fires — the
whole creation fails with the validation error naming the missing
item/service combination, and the order collection is left unchanged
(no partial order is persisted). -/
theorem createOrder_pricing_unavailable (cat : Catalog)
    (deliveryCharge : Int) (db : List Order) (userId : Nat)
    (dto : CreateOrderDto) (now newId : Nat)
    (hall : ∀ d ∈ dto.items, ∃ ci,
      getClothingItemById cat d.clothingItemId = .ok ci)
    (hmiss : ∃ d ∈ dto.items, ∃ st ∈ d.services,
      ∀ p, getItemPrice cat d.clothingItemId st d.category ≠ .ok p) :
    ∃ d ∈ dto.items, ∃ ci st,
      getClothingItemById cat d.clothingItemId = .ok ci ∧
      st ∈ d.services ∧
      (∀ p, getItemPrice cat d.clothingItemId st d.category ≠ .ok p) ∧
      createOrder cat deliveryCharge userId dto now newId =
        .error (.badRequest ("Pricing not found for " ++ ci.nameEn ++
          " - " ++ serviceTypeValue st)) ∧
      createOrderOp cat deliveryCharge db userId dto now newId =
        (db, .error (.badRequest ("Pricing not found for " ++ ci.nameEn ++
          " - " ++ serviceTypeValue st))) := by
  obtain ⟨d, hd, ci, st, hci, hst, hm, heq⟩ :=
    priceOrderItems_error_of_missing cat dto.items hall hmiss
  have hcr : createOrder cat deliveryCharge userId dto now newId =
      .error (.badRequest ("Pricing not found for " ++ ci.nameEn ++
        " - " ++ serviceTypeValue st)) := by
    unfold createOrder
    rw [heq]
  refine ⟨d, hd, ci, st, hci, hst, hm, hcr, ?_⟩
  unfold createOrderOp
  rw [hcr]

/-- A catalog where the Shirt is priced for washing only — the ironing
price is missing. -/
def missingIroningCatalog : Catalog :=
  { clothingItems := [{ id := 1, nameEn := "Shirt" }],
    pricing :=
      [{ clothingItem := 1, serviceType := .washing, category := .men,
         price := 40, isActive := true }] }

/-- C3 witness: `demoDto` requests washing and ironing for the Shirt;
against `missingIroningCatalog` the creation fails with the validation
error "Pricing not found for Shirt - ironing" and persists nothing. -/
theorem createOrder_pricing_unavailable_witness :
    (∃ d ∈ demoDto.items, ∃ ci st,
      getClothingItemById missingIroningCatalog d.clothingItemId =
        .ok ci ∧
      st ∈ d.services ∧
      (∀ p, getItemPrice missingIroningCatalog d.clothingItemId st
        d.category ≠ .ok p) ∧
      createOrder missingIroningCatalog 60 100 demoDto 1000 7 =
        .error (.badRequest ("Pricing not found for " ++ ci.nameEn ++
          " - " ++ serviceTypeValue st)) ∧
      createOrderOp missingIroningCatalog 60 [] 100 demoDto 1000 7 =
        ([], .error (.badRequest ("Pricing not found for " ++ ci.nameEn ++
          " - " ++ serviceTypeValue st)))) ∧
    createOrderOp missingIroningCatalog 60 [] 100 demoDto 1000 7 =
      ([], .error (.badRequest "Pricing not found for Shirt - ironing")) := by
  constructor
  · refine createOrder_pricing_unavailable missingIroningCatalog 60 []
      100 demoDto 1000 7 ?_ ?_
    · intro d hd
      rcases List.mem_singleton.mp hd with rfl
      exact ⟨{ id := 1, nameEn := "Shirt" }, rfl⟩
    · refine ⟨{ clothingItemId := 1, category := .men,
                services := [.washing, .ironing], quantity := 2 },
        List.mem_singleton.mpr rfl, .ironing, by decide, ?_⟩
      intro p hcontra
      have : getItemPrice missingIroningCatalog 1 .ironing .men =
          .error (.notFound "Pricing not found for this item and service") :=
        rfl
      rw [this] at hcontra
      exact Except.noConfusion hcontra
  · rfl

/-- The C5 history invariant: a non-empty history whose first entry is
the REQUESTED creation entry (note "Order placed", actor the customer,
creation timestamp) and whose last entry's status is the order's
current status. -/
def historyInvariant (o : Order) : Prop :=
  o.statusHistory ≠ [] ∧
  (∀ e, o.statusHistory.head? = some e →
    e.status = OrderStatus.requested ∧ e.note = "Order placed" ∧
    e.updatedBy = o.customer ∧ e.timestamp = o.createdAt) ∧
  o.statusHistory.getLast?.map StatusHistoryEntry.status = some o.status

/-- C5: creation establishes the history invariant; a status update
appends exactly one entry — the caller's identity, the new status, the
timestamp, and the note (empty when none was supplied) — preserving the
invariant and leaving all prior entries untouched; assignment leaves
history and status unchanged and so also preserves the invariant. -/
theorem statusHistory_invariant :
    (∀ (cat : Catalog) (deliveryCharge : Int) (userId : Nat)
        (dto : CreateOrderDto) (now newId : Nat) (o : Order),
      createOrder cat deliveryCharge userId dto now newId = .ok o →
      historyInvariant o) ∧
    (∀ (db : List Order) (orderId : Nat) (dto : UpdateOrderStatusDto)
        (user : User) (now : Nat) (order o : Order),
      findOrder db orderId = some order →
      updateOrderStatus db orderId dto user now = .ok o →
      o.statusHistory = order.statusHistory ++
        [{ status := dto.status, timestamp := now,
           note := dto.note.getD "", updatedBy := user.id }] ∧
      o.status = dto.status ∧
      (historyInvariant order → historyInvariant o)) ∧
    (∀ (db : List Order) (users : List User) (orderId : Nat)
        (dto : AssignDeliveryDto) (order o : Order),
      findOrder db orderId = some order →
      assignDeliveryPerson db users orderId dto = .ok o →
      o.statusHistory = order.statusHistory ∧ o.status = order.status ∧
      (historyInvariant order → historyInvariant o)) := by
  refine ⟨?_, ?_, ?_⟩
  · intro cat deliveryCharge userId dto now newId o h
    unfold createOrder at h
    cases hp : priceOrderItems cat dto.items with
    | error e =>
      rw [hp] at h
      exact absurd h (by simp)
    | ok pr =>
      obtain ⟨lines, total⟩ := pr
      rw [hp] at h
      injection h with h
      subst h
      refine ⟨by simp, ?_, by simp⟩
      intro e he
      rw [List.head?_cons] at he
      injection he with he
      subst he
      exact ⟨rfl, rfl, rfl, rfl⟩
  · intro db orderId dto user now order o h1 h2
    unfold updateOrderStatus at h2
    rw [h1] at h2
    dsimp only at h2
    split at h2
    · exact absurd h2 (by simp)
    · split at h2
      · exact absurd h2 (by simp)
      · injection h2 with h2
        subst h2
        refine ⟨rfl, rfl, ?_⟩
        rintro ⟨hne, hhead, -⟩
        refine ⟨by simp, ?_, ?_⟩
        · intro e he
          cases hsh : order.statusHistory with
          | nil => exact absurd hsh hne
          | cons a t =>
            rw [hsh, List.cons_append, List.head?_cons] at he
            injection he with he
            subst he
            exact hhead _ (by rw [hsh, List.head?_cons])
        · show ((order.statusHistory ++ _).getLast?).map
            StatusHistoryEntry.status = _
          rw [List.getLast?_concat]
          rfl
  · intro db users orderId dto order o h1 h2
    unfold assignDeliveryPerson at h2
    rw [h1] at h2
    dsimp only at h2
    cases hu : users.find? (fun v => v.id == dto.deliveryPersonId) with
    | none =>
      rw [hu] at h2
      exact absurd h2 (by simp)
    | some u =>
      rw [hu] at h2
      dsimp only at h2
      split at h2
      · exact absurd h2 (by simp)
      · injection h2 with h2
        subst h2
        exact ⟨rfl, rfl, fun hinv => hinv⟩

/-- C5 witness: `demoOrder` (the created order) satisfies the history
invariant; the admin user 500 updating it to PICKED_UP with note
"On the way" at time 2000 appends exactly that one entry and preserves
the invariant. -/
theorem statusHistory_invariant_witness :
    historyInvariant demoOrder ∧
    ∃ o, updateOrderStatus [demoOrder] 7
        { status := .picked_up, note := some "On the way" }
        { id := 500, role := .admin } 2000 = .ok o ∧
      o.statusHistory = demoOrder.statusHistory ++
        [{ status := .picked_up, timestamp := 2000,
           note := "On the way", updatedBy := 500 }] ∧
      historyInvariant o := by
  have h1 : historyInvariant demoOrder :=
    statusHistory_invariant.1 demoCatalog 60 100 demoDto 1000 7
      demoOrder rfl
  refine ⟨h1, ?_⟩
  refine ⟨{ demoOrder with
            status := .picked_up,
            statusHistory := demoOrder.statusHistory ++
              [{ status := .picked_up, timestamp := 2000,
                 note := "On the way", updatedBy := 500 }] }, rfl, rfl, ?_⟩
  exact (statusHistory_invariant.2.1 [demoOrder] 7
    { status := .picked_up, note := some "On the way" }
    { id := 500, role := .admin } 2000 demoOrder _ (by decide) rfl).2.2 h1

end LaundryLab
